import Mathlib

/-!
Verification development for the captcha-canvas image generator
(`src/main.js`).  The JavaScript code is shallowly embedded: JS numbers
are modelled as exact rationals (`ℚ`) or naturals/integers where the code
only ever produces integers, JS strings as `String` or `List Char`,
canvas method calls as an accumulated list of drawing operations, and the
one runtime exception the code can raise (reading a property of
`undefined`) as an `Except` error.
-/

namespace CaptchaCanvas

/-! ### Hex encoding of random bytes (`crypto.randomBytes(n).toString("hex")`) -/

/-- The lowercase hexadecimal digit characters, in order. -/
def hexChars : List Char := "0123456789abcdef".toList

/-- The hex digit character for a nibble value. -/
def hexDigitChar (n : ℕ) : Char := hexChars.getD (n % 16) '0'

/-- One byte encodes to two hex characters (high nibble, low nibble). -/
def byteToHex (b : ℕ) : List Char := [hexDigitChar (b / 16), hexDigitChar (b % 16)]

/-- Embeds `Buffer.toString("hex")`: each byte to two lowercase hex characters. -/
def hexEncode (bytes : List ℕ) : List Char := bytes.flatMap byteToHex

/-- JS `String.prototype.toUpperCase` restricted to ASCII characters,
which is all the hex encoding produces. -/
def jsToUpper (c : Char) : Char :=
  if 'a' ≤ c ∧ c ≤ 'z' then Char.ofNat (c.toNat - 32) else c

/-- The characters kept by `replace(/[^a-z]/gi, "")`: ASCII letters of
either case (the regex is case-insensitive). -/
def isAsciiLetter (c : Char) : Bool :=
  ('a' ≤ c && c ≤ 'z') || ('A' ≤ c && c ≤ 'Z')

/-- Embeds `main.js` lines 53-54: the challenge text computed in the constructor,
as a function of the 32 random bytes and the configured character count:
`crypto.randomBytes(32).toString("hex").toUpperCase().replace(/[^a-z]/gi, "").substr(0, characters)`. -/
def constructorText (bytes : List ℕ) (characters : ℕ) : List Char :=
  (((hexEncode bytes).map jsToUpper).filter isAsciiLetter).take characters

/-- The six letters that survive uppercasing and the alphabetic filter. -/
def captchaAlphabet : List Char := ['A', 'B', 'C', 'D', 'E', 'F']

/-! ### Option groups and generator state (`constants.js` shapes, `main.js` fields) -/

/-- The captcha text option group (`SetCaptchaOptions` shape). -/
structure CaptchaOpts where
  characters : ℕ
  text : List Char
  color : String
  font : String
  size : ℚ
  opacity : ℚ
deriving DecidableEq

/-- The trace line option group (`SetTraceOptions` shape). -/
structure TraceOpts where
  color : String
  size : ℚ
  opacity : ℚ
deriving DecidableEq

/-- The decoy character option group (`SetDecoyOptions` shape). -/
structure DecoyOpts where
  color : String
  font : String
  size : ℚ
  opacity : ℚ
deriving DecidableEq

/-- The fields of a `CaptchaGenerator` instance (`main.js` lines 26-55). -/
structure GenState where
  height : ℕ
  width : ℕ
  background : Option String
  captcha : CaptchaOpts
  trace : TraceOpts
  decoy : DecoyOpts
deriving DecidableEq

/-- The `text` getter (`main.js` lines 60-62), returning `this.captcha.text`. -/
def textAccessor (s : GenState) : List Char := s.captcha.text

/-! ### `setCaptcha` (`main.js` lines 92-96) -/

/-- A partial override for the captcha option group: each field may be
absent (`undefined` in JS). -/
structure SetCaptchaOpts where
  characters : Option ℕ
  text : Option (List Char)
  color : Option String
  font : Option String
  size : Option ℚ
  opacity : Option ℚ
deriving DecidableEq

/-- Embeds `deepmerge(this.captcha, options)` on the captcha group: every field
present in the override replaces the current value, absent fields keep
the prior value (all fields here are scalars, so the deep merge is a
per-field override). -/
def mergeCaptcha (cur : CaptchaOpts) (o : SetCaptchaOpts) : CaptchaOpts :=
  { characters := o.characters.getD cur.characters
    text := o.text.getD cur.text
    color := o.color.getD cur.color
    font := o.font.getD cur.font
    size := o.size.getD cur.size
    opacity := o.opacity.getD cur.opacity }

/-- JS truthiness of `options.text`: `undefined` and the empty string are
falsy, every non-empty string is truthy. -/
def textTruthy (o : SetCaptchaOpts) : Bool :=
  match o.text with
  | some t => !t.isEmpty
  | none => false

/-- Embeds `setCaptcha` (`main.js` lines 92-96): merge the override, then
re-derive `characters` from `options.text.length` when `options.text`
is truthy. -/
def setCaptcha (s : GenState) (o : SetCaptchaOpts) : GenState :=
  let merged := mergeCaptcha s.captcha o
  let merged :=
    if textTruthy o then
      { merged with characters := (o.text.getD []).length }
    else merged
  { s with captcha := merged }

/-! ### Randomness and `getRandom` (`main.js` lines 12-14) -/

/-- Embeds `getRandom(n)` (`main.js` lines 12-14):
`Math.floor(Math.random()*(n - 60)) + 30`, with the `Math.random()` draw
`r` made explicit.  The result is always an integer. -/
def getRandom (n : ℕ) (r : ℚ) : ℤ := ⌊r * ((n : ℚ) - 60)⌋ + 30

/-- The random draws one `generate()` call consumes, made explicit:
`Math.random()` values in `[0,1)` for the character y-coordinates and the
decoy glyph positions, and the `crypto.randomBytes` bytes for the decoy
text. -/
structure Rand where
  charY : ℕ → ℚ
  decoyBytes : ℕ → ℕ
  decoyX : ℕ → ℚ
  decoyY : ℕ → ℚ

/-! ### Layout (`main.js` lines 122-133) -/

/-- Embeds `Math.floor(this.width/(this.captcha.characters))` for `characters ≥ 1`
(with `characters = 0` the loop body containing it never runs). -/
def widthGap (width characters : ℕ) : ℕ := width / characters

/-- The coordinate list built by the loop at `main.js` lines 124-132, in
construction order: the i-th coordinate is
`[widthGap*(i + 0.2), getRandom(height)]`. -/
def rawCoords (s : GenState) (r : Rand) : List (ℚ × ℚ) :=
  (List.range s.captcha.characters).map (fun (i : ℕ) =>
    ((widthGap s.width s.captcha.characters : ℚ) * ((i : ℚ) + 2/10),
     (getRandom s.height (r.charY i) : ℚ)))

/-- The comparator `(a, b) => a[0] - b[0]` sorts ascending by the first
component. -/
def byX (a b : ℚ × ℚ) : Bool := decide (a.1 ≤ b.1)

/-- Embeds `coordinates = coordinates.sort((a, b) => a[0] - b[0])`
(`main.js` line 133). -/
def layoutCoords (s : GenState) (r : Rand) : List (ℚ × ℚ) :=
  (rawCoords s r).mergeSort byX

/-! ### Canvas operations -/

/-- One drawing/configuration call issued to the `canvas-constructor`
surface. -/
inductive Op where
  | setTextBaseline (v : String)
  | setLineJoin (v : String)
  | printImage (img : String) (x y w h : ℚ)
  | setTextFont (f : String)
  | setGlobalAlpha (a : ℚ)
  | setColor (c : String)
  | printText (t : Option Char) (x y : ℚ)
  | setStroke (c : String)
  | setStrokeWidth (w : ℚ)
  | beginPath
  | moveTo (x y : ℚ)
  | lineTo (x y : ℚ)
  | stroke
deriving DecidableEq

/-- The runtime exception the method can raise: a `TypeError` from
reading a property of `undefined`. -/
inductive JsError where
  | typeError
deriving DecidableEq

/-- The font string built as size, then "px ", then the font name. -/
def fontString (size : ℚ) (font : String) : String :=
  toString size ++ "px " ++ font

/-! ### The drawing stages of `generate` (`main.js` lines 118-170) -/

/-- The two setup calls on the fresh canvas (`main.js` lines 119-121). -/
def setupOps : List Op := [.setTextBaseline "middle", .setLineJoin "miter"]

/-- The background stage (`main.js` lines 136-139): if a background is
set, resolve it and blit it over the whole canvas. -/
def backgroundOps (s : GenState) : List Op :=
  match s.background with
  | some img => [.printImage img 0 0 (s.width : ℚ) (s.height : ℚ)]
  | none => []

/-- Embeds `Math.floor(this.height*this.width/10000)` (`main.js` line 142): the
number of random bytes drawn for the decoy text. -/
def decoyByteCount (s : GenState) : ℕ := s.height * s.width / 10000

/-- Embeds the decoy text of `main.js` line 143
(`main.js` line 143): the decoy glyphs are the individual hex characters,
two per random byte. -/
def decoyChars (s : GenState) (r : Rand) : List Char :=
  hexEncode ((List.range (decoyByteCount s)).map r.decoyBytes)

/-- The decoy stage (`main.js` lines 141-150): skipped unless
`decoy.opacity > 0`; otherwise set font, alpha and color, then print each
decoy character at an independently random position. -/
def decoyOps (s : GenState) (r : Rand) : List Op :=
  if 0 < s.decoy.opacity then
    [.setTextFont (fontString s.decoy.size s.decoy.font),
     .setGlobalAlpha s.decoy.opacity,
     .setColor s.decoy.color] ++
    ((decoyChars s r).enum.map (fun ci =>
      .printText (some ci.2) ((getRandom s.width (r.decoyX ci.1) : ℚ))
        ((getRandom s.height (r.decoyY ci.1) : ℚ))))
  else []

/-- The trace stage (`main.js` lines 151-161): skipped unless
`trace.opacity > 0`; otherwise `coordinates[0]` is read for `moveTo` —
a `TypeError` when the coordinate list is empty — and each later
coordinate is a `lineTo`, followed by one `stroke`. -/
def traceOps (s : GenState) (coords : List (ℚ × ℚ)) : Except JsError (List Op) :=
  if 0 < s.trace.opacity then
    match coords with
    | [] => .error .typeError
    | c0 :: rest =>
      .ok ([.setStroke s.trace.color,
            .setGlobalAlpha s.trace.opacity,
            .beginPath,
            .moveTo c0.1 c0.2,
            .setStrokeWidth s.trace.size] ++
           rest.map (fun c => .lineTo c.1 c.2) ++
           [.stroke])
  else .ok []

/-- The captcha text stage (`main.js` lines 162-169): skipped unless
`captcha.opacity > 0`; otherwise set font, alpha and color, then print
`this.captcha.text[n]` (which is `undefined`, here `none`, when the text
is shorter than the coordinate list) at the n-th coordinate. -/
def captchaTextOps (s : GenState) (coords : List (ℚ × ℚ)) : List Op :=
  if 0 < s.captcha.opacity then
    [.setTextFont (fontString s.captcha.size s.captcha.font),
     .setGlobalAlpha s.captcha.opacity,
     .setColor s.captcha.color] ++
    (coords.enum.map (fun ci =>
      .printText (s.captcha.text.get? ci.1) ci.2.1 ci.2.2))
  else []

/-- Embeds `generate()` (`main.js` lines 118-171) as the sequence of operations
issued to the canvas, mirroring the method body: setup, coordinate
computation, background blit, decoy stage, trace stage, captcha text
stage.  An out-of-bounds `coordinates[0]` access aborts the call with a
`TypeError`. -/
def generateOps (s : GenState) (r : Rand) : Except JsError (List Op) :=
  let canvas := setupOps
  let coords := layoutCoords s r
  let canvas := canvas ++ backgroundOps s
  let canvas := canvas ++ decoyOps s r
  match traceOps s coords with
  | .error e => .error e
  | .ok tr => .ok (canvas ++ tr ++ captchaTextOps s coords)

/-- The method body of `generate` contains no assignment to any field of
`this` (lines 118-171 only read `this` and write the local `canvas`), so
a call leaves the instance state unchanged: running `generate` yields the
emitted operations together with the unchanged post-state. -/
def generateRun (s : GenState) (r : Rand) : Except JsError (List Op) × GenState :=
  (generateOps s r, s)

/-- The state after `n` successive `generate()` calls (with the random
draws of the k-th call given by `rs k`). -/
def runGenerates (s : GenState) (rs : ℕ → Rand) : ℕ → GenState
  | 0 => s
  | n + 1 => (generateRun (runGenerates s rs n) (rs n)).2

/-! ### Object identity of the default option groups (`main.js` lines 41, 53)

`require("./constants")` is evaluated once per process, so
`defaultCaptchaOptions` is a single JS object.  Line 41 assigns that
object by reference (`this.captcha = defaultCaptchaOptions`), and line 53
then writes `this.captcha.text = ...` through the reference — mutating
the shared default object.  The heap model below makes that one shared
object explicit. -/

/-- The mutable heap: the single `defaultCaptchaOptions` object exported
by the cached `./constants` module. -/
structure JsHeap where
  defaultCaptcha : CaptchaOpts
deriving DecidableEq

/-- What an instance's `this.captcha` field can point at: the shared
module default object, or a fresh object (as produced by `deepmerge` in
`setCaptcha`, which returns a new object). -/
inductive CaptchaRef where
  | moduleDefault : CaptchaRef
  | fresh : CaptchaOpts → CaptchaRef
deriving DecidableEq

/-- Dereference a captcha-options reference in the heap. -/
def derefCaptcha (h : JsHeap) : CaptchaRef → CaptchaOpts
  | .moduleDefault => h.defaultCaptcha
  | .fresh c => c

/-- A constructed `CaptchaGenerator` instance, with its `captcha` field
as a reference into the heap. -/
structure GenInstance where
  height : ℕ
  width : ℕ
  captchaRef : CaptchaRef
deriving DecidableEq

/-- The constructor (`main.js` lines 26-55) in the heap model:
`this.captcha = defaultCaptchaOptions` stores a reference to the shared
default object, and `this.captcha.text = crypto.randomBytes(32)...`
writes the freshly generated text through that reference, updating the
shared object in the heap. -/
def constructGen (h : JsHeap) (height width : ℕ) (bytes : List ℕ) :
    JsHeap × GenInstance :=
  let chars := h.defaultCaptcha.characters
  let txt := constructorText bytes chars
  ({ defaultCaptcha := { h.defaultCaptcha with text := txt } },
   { height := height, width := width, captchaRef := .moduleDefault })

/-- The `text` getter in the heap model: read `this.captcha.text` through
the stored reference. -/
def instText (h : JsHeap) (g : GenInstance) : List Char :=
  (derefCaptcha h g.captchaRef).text

/-! ### Concrete inputs for witnesses and counterexamples -/

/-- A concrete captcha option group. -/
def sampleCaptchaOpts : CaptchaOpts :=
  { characters := 6, text := ['A', 'B', 'C', 'D', 'E', 'F'],
    color := "green", font := "Sans", size := 40, opacity := 1 }

/-- A concrete generator state with the documented default dimensions
(height 100, width 300) and all three stages enabled. -/
def sampleState : GenState :=
  { height := 100, width := 300, background := none,
    captcha := sampleCaptchaOpts,
    trace := { color := "red", size := 3, opacity := 1 },
    decoy := { color := "gray", font := "Sans", size := 20, opacity := 1 } }

/-- A concrete generator state with zero characters but the trace stage
enabled. -/
def emptyCharsState : GenState :=
  { sampleState with captcha := { sampleCaptchaOpts with characters := 0 } }

/-- A concrete random tape. -/
def sampleRand : Rand :=
  { charY := fun _ => 1/2, decoyBytes := fun _ => 171,
    decoyX := fun _ => 1/2, decoyY := fun _ => 1/2 }

/-- Decidable form of "every character is in the six-letter alphabet". -/
def allInAlphabet (l : List Char) : Bool :=
  l.all (fun c => decide (c ∈ captchaAlphabet))

/-! ### Theorems -/

theorem hexDigitChar_mem (n : ℕ) : hexDigitChar n ∈ hexChars := by
  unfold hexDigitChar
  rw [List.getD_eq_getElem?_getD]
  rcases h : hexChars[n % 16]? with _ | c
  · simp only [Option.getD_none]
    decide
  · simp only [Option.getD_some]
    exact List.getElem?_mem h

theorem mem_hexEncode {c : Char} {bytes : List ℕ} (h : c ∈ hexEncode bytes) :
    c ∈ hexChars := by
  unfold hexEncode at h
  rcases List.mem_flatMap.1 h with ⟨b, _, hb⟩
  unfold byteToHex at hb
  simp only [List.mem_cons, List.not_mem_nil, or_false] at hb
  rcases hb with rfl | rfl
  · exact hexDigitChar_mem _
  · exact hexDigitChar_mem _

theorem upper_hex_letter :
    ∀ c ∈ hexChars, isAsciiLetter (jsToUpper c) = true →
      jsToUpper c ∈ captchaAlphabet := by
  decide

/-- Claim C1 (amended): the challenge text computed at construction
consists only of letters from {A,B,C,D,E,F}, and its length is the
*minimum* of the configured `characters` count and the number of letters
surviving the alphabetic filter of the 64-character hex encoding — in
particular it never exceeds `characters`, but can fall short of it. -/
theorem constructor_text_alphabet_and_length (bytes : List ℕ) (k : ℕ) :
    allInAlphabet (constructorText bytes k) = true ∧
    (constructorText bytes k).length =
      min k (((hexEncode bytes).map jsToUpper).filter isAsciiLetter).length ∧
    (constructorText bytes k).length ≤ k := by
  refine ⟨?_, ?_, ?_⟩
  · rw [allInAlphabet, List.all_eq_true]
    intro c hc
    rw [decide_eq_true_eq]
    have hc2 : c ∈ ((hexEncode bytes).map jsToUpper).filter isAsciiLetter :=
      List.mem_of_mem_take hc
    have hl := List.of_mem_filter hc2
    have hm := List.mem_of_mem_filter hc2
    rcases List.mem_map.1 hm with ⟨c0, hc0, rfl⟩
    exact upper_hex_letter _ (mem_hexEncode hc0) hl
  · rw [constructorText, List.length_take]
  · rw [constructorText]
    exact List.length_take_le k _

/-- Claim C1 counterexample: with all-zero random bytes the hex encoding
is 64 digit characters, the alphabetic filter removes everything, and the
challenge text is empty — its length 0 differs from the configured
character count 6, refuting "length exactly equal to `characters`". -/
theorem constructor_text_length_counterexample :
    (List.replicate 32 0).length = 32 ∧
    (constructorText (List.replicate 32 0) 6).length = 0 ∧ (0 : ℕ) ≠ 6 := by
  decide

/-- The override `{text: ""}` used in the C3 counterexample. -/
def emptyTextOverride : SetCaptchaOpts :=
  { characters := none, text := some [], color := none, font := none,
    size := none, opacity := none }

/-- Claim C3 counterexample: supplying the (empty) string `""` as `text`
in `setCaptcha` does not re-derive `characters` — the guard
`if(options.text)` treats the empty string as falsy, so `characters`
stays 6 while the supplied text has length 0. -/
theorem setCaptcha_empty_text_counterexample :
    emptyTextOverride.text = some [] ∧
    (setCaptcha sampleState emptyTextOverride).captcha.characters = 6 ∧
    (setCaptcha sampleState emptyTextOverride).captcha.text = [] ∧
    (6 : ℕ) ≠ ([] : List Char).length := by
  decide

/-- Claim C3 (amended): after `setCaptcha(options)` with a *non-empty*
literal `text` supplied, the stored `characters` count equals the length
of the supplied text. -/
theorem setCaptcha_text_sets_characters (s : GenState) (o : SetCaptchaOpts)
    (t : List Char) (ht : o.text = some t) (hne : t ≠ []) :
    (setCaptcha s o).captcha.characters = t.length := by
  unfold setCaptcha textTruthy
  rw [ht]
  simp only [Option.getD_some]
  have : t.isEmpty = false := by
    cases t with
    | nil => exact absurd rfl hne
    | cons a l => rfl
  rw [this]
  simp

/-- Witness for the amended C3 theorem at a concrete input. -/
theorem setCaptcha_text_sets_characters_witness :
    (setCaptcha sampleState
      { characters := none, text := some ['H', 'I'], color := none,
        font := none, size := none, opacity := none }).captcha.characters = 2 :=
  setCaptcha_text_sets_characters sampleState
    { characters := none, text := some ['H', 'I'], color := none,
      font := none, size := none, opacity := none }
    ['H', 'I'] rfl (by decide)

/-- Recogniser for text-draw (`printText`) operations. -/
def isPrintTextOp : Op → Bool
  | .printText _ _ _ => true
  | _ => false

theorem hexEncode_length (bs : List ℕ) : (hexEncode bs).length = 2 * bs.length := by
  induction bs with
  | nil => rfl
  | cons b t ih =>
    simp only [hexEncode, List.flatMap_cons, List.length_append, List.length_cons,
      byteToHex, List.length_nil] at *
    omega

theorem decoyChars_length (s : GenState) (r : Rand) :
    (decoyChars s r).length = 2 * decoyByteCount s := by
  rw [decoyChars, hexEncode_length, List.length_map, List.length_range]

/-- Claim C2 counterexample: at the default dimensions (height 100,
width 300) with decoy opacity 1/2, the decoy stage issues 6 text-draw
calls, not `floor(100*300/10000) = 3`: the code draws one glyph per *hex
character* and the hex encoding yields two characters per random byte. -/
theorem decoy_glyph_count_counterexample :
    (0 : ℚ) < sampleState.decoy.opacity ∧
    (decoyOps sampleState sampleRand).countP isPrintTextOp = 6 ∧
    sampleState.height * sampleState.width / 10000 = 3 ∧ (6 : ℕ) ≠ 3 := by
  decide

/-- Claim C2 (amended): when the decoy stage runs (decoy opacity > 0),
the number of decoy glyphs drawn equals `2 * floor(H * W / 10000)` — two
hex characters per random byte, one text-draw call per hex character. -/
theorem decoy_glyph_count (s : GenState) (r : Rand) (h : 0 < s.decoy.opacity) :
    (decoyOps s r).countP isPrintTextOp = 2 * (s.height * s.width / 10000) := by
  unfold decoyOps
  rw [if_pos h, List.countP_append]
  have h1 : (([.setTextFont (fontString s.decoy.size s.decoy.font),
      .setGlobalAlpha s.decoy.opacity,
      .setColor s.decoy.color] : List Op)).countP isPrintTextOp = 0 := by
    simp [List.countP_cons, isPrintTextOp, List.countP_nil]
  rw [h1, Nat.zero_add, List.countP_map]
  have h2 : ∀ ci ∈ (decoyChars s r).enum,
      (isPrintTextOp ∘ fun ci =>
        Op.printText (some ci.2) ((getRandom s.width (r.decoyX ci.1) : ℤ) : ℚ)
          ((getRandom s.height (r.decoyY ci.1) : ℤ) : ℚ)) ci = true := by
    intro ci _
    rfl
  rw [List.countP_eq_length.2 h2, List.enum_length, decoyChars_length, decoyByteCount]

/-- Witness for the amended C2 theorem at a concrete input. -/
theorem decoy_glyph_count_witness :
    (decoyOps sampleState sampleRand).countP isPrintTextOp =
      2 * (sampleState.height * sampleState.width / 10000) :=
  decoy_glyph_count sampleState sampleRand (by decide)

theorem rawCoords_x_mono (s : GenState) {i j : ℕ} (hij : i < j) :
    (widthGap s.width s.captcha.characters : ℚ) * ((i : ℚ) + 2/10) ≤
      (widthGap s.width s.captcha.characters : ℚ) * ((j : ℚ) + 2/10) := by
  have hm : ((i : ℚ) + 2/10) ≤ ((j : ℚ) + 2/10) := by
    have : (i : ℚ) ≤ (j : ℚ) := by exact_mod_cast le_of_lt hij
    linarith
  exact mul_le_mul_of_nonneg_left hm (by positivity)

theorem rawCoords_pairwise (s : GenState) (r : Rand) :
    (rawCoords s r).Pairwise (fun a b => byX a b = true) := by
  unfold rawCoords
  rw [List.pairwise_map]
  refine (List.pairwise_lt_range _).imp ?_
  intro i j hij
  rw [byX, decide_eq_true_eq]
  exact rawCoords_x_mono s hij

theorem layoutCoords_eq_rawCoords (s : GenState) (r : Rand) :
    layoutCoords s r = rawCoords s r :=
  List.mergeSort_of_sorted (rawCoords_pairwise s r)

/-- Claim C5: for `characters = n ≥ 1`, the layout computation produces
exactly `n` coordinates; the i-th has x-coordinate
`floor(W / n) * (i + 0.2)` (and y-coordinate `getRandom(H)`); and after
the final sort the x-coordinates are non-decreasing. -/
theorem layout_coords_spec (s : GenState) (r : Rand)
    (_hn : 1 ≤ s.captcha.characters) :
    (layoutCoords s r).length = s.captcha.characters ∧
    (∀ i, i < s.captcha.characters →
      (layoutCoords s r)[i]? =
        some ((widthGap s.width s.captcha.characters : ℚ) * ((i : ℚ) + 2/10),
          (getRandom s.height (r.charY i) : ℚ))) ∧
    ((layoutCoords s r).map Prod.fst).Sorted (· ≤ ·) := by
  rw [layoutCoords_eq_rawCoords]
  refine ⟨?_, ?_, ?_⟩
  · rw [rawCoords, List.length_map, List.length_range]
  · intro i hi
    rw [rawCoords, List.getElem?_map, List.getElem?_range hi]
    rfl
  · rw [List.Sorted, rawCoords, List.map_map, List.pairwise_map]
    refine (List.pairwise_lt_range _).imp ?_
    intro i j hij
    exact rawCoords_x_mono s hij

/-- Witness for the C5 theorem at a concrete input: 6 slots of width 50,
third coordinate at x = 50 * 2.2 = 110 with y = floor(0.5*40)+30 = 50. -/
theorem layout_coords_spec_witness :
    (layoutCoords sampleState sampleRand).length = 6 ∧
    (layoutCoords sampleState sampleRand)[2]? = some (110, 50) := by
  have h := layout_coords_spec sampleState sampleRand (by decide)
  refine ⟨h.1, ?_⟩
  rw [h.2.1 2 (by decide)]
  norm_num [sampleState, sampleRand, sampleCaptchaOpts, widthGap, getRandom]

/-- Claim C6: for a canvas height `H > 60` and a `Math.random()` draw in
`[0,1)`, `getRandom(H)` is an integer in the half-open range
`[30, H - 30)`. -/
theorem getRandom_range (n : ℕ) (r : ℚ) (hn : 60 < n) (h0 : 0 ≤ r)
    (h1 : r < 1) :
    30 ≤ getRandom n r ∧ getRandom n r < (n : ℤ) - 30 := by
  unfold getRandom
  have hc : (0 : ℚ) < (n : ℚ) - 60 := by
    have : (60 : ℚ) < n := by exact_mod_cast hn
    linarith
  constructor
  · have : (0 : ℤ) ≤ ⌊r * ((n : ℚ) - 60)⌋ :=
      Int.floor_nonneg.2 (mul_nonneg h0 (le_of_lt hc))
    omega
  · have hlt : r * ((n : ℚ) - 60) < (n : ℚ) - 60 := by
      calc r * ((n : ℚ) - 60) < 1 * ((n : ℚ) - 60) :=
            mul_lt_mul_of_pos_right h1 hc
        _ = (n : ℚ) - 60 := one_mul _
    have hfl : ⌊r * ((n : ℚ) - 60)⌋ < (n : ℤ) - 60 := by
      rw [Int.floor_lt]
      push_cast
      exact hlt
    omega

/-- Witness for the C6 theorem at height 100 and draw 1/2. -/
theorem getRandom_range_witness :
    (60 < 100 ∧ (0 : ℚ) ≤ 1/2 ∧ (1/2 : ℚ) < 1) ∧
    30 ≤ getRandom 100 (1/2) ∧ getRandom 100 (1/2) < (100 : ℤ) - 30 :=
  ⟨⟨by norm_num, by norm_num, by norm_num⟩,
    getRandom_range 100 (1/2) (by norm_num) (by norm_num) (by norm_num)⟩

/-- Recogniser for the background stage's image-blit operation. -/
def isBlitOp : Op → Bool
  | .printImage _ _ _ _ _ => true
  | _ => false

/-- Recogniser for the operations a text stage (decoy or captcha text)
can issue: font, alpha, color configuration and text drawing. -/
def isTextStageOp : Op → Bool
  | .setTextFont _ => true
  | .setGlobalAlpha _ => true
  | .setColor _ => true
  | .printText _ _ _ => true
  | _ => false

/-- Recogniser for the operations the trace stage can issue: stroke
configuration and path construction. -/
def isStrokeStageOp : Op → Bool
  | .setStroke _ => true
  | .setGlobalAlpha _ => true
  | .beginPath => true
  | .moveTo _ _ => true
  | .setStrokeWidth _ => true
  | .lineTo _ _ => true
  | .stroke => true
  | _ => false

/-- All operations of a (possibly failed) trace stage are stroke-stage
operations. -/
def strokeStageOnly : Except JsError (List Op) → Bool
  | .ok tr => tr.all isStrokeStageOp
  | .error _ => true

theorem generateOps_decomp (s : GenState) (r : Rand) :
    generateOps s r = (traceOps s (layoutCoords s r)).map
      (fun tr => setupOps ++ backgroundOps s ++ decoyOps s r ++ tr ++
        captchaTextOps s (layoutCoords s r)) := by
  unfold generateOps
  cases h : traceOps s (layoutCoords s r) <;> simp [h, Except.map]

/-- Claim C7: every `generate` call issues its operations in the fixed
order setup, background blit (if a background is set), decoy glyphs,
trace stroke, challenge text last — the emitted sequence always
decomposes as that concatenation, and each segment contains only its own
stage's kinds of operations. -/
theorem generate_draw_order (s : GenState) (r : Rand) :
    generateOps s r = (traceOps s (layoutCoords s r)).map
      (fun tr => setupOps ++ backgroundOps s ++ decoyOps s r ++ tr ++
        captchaTextOps s (layoutCoords s r)) ∧
    (backgroundOps s).all isBlitOp = true ∧
    (decoyOps s r).all isTextStageOp = true ∧
    strokeStageOnly (traceOps s (layoutCoords s r)) = true ∧
    (captchaTextOps s (layoutCoords s r)).all isTextStageOp = true := by
  refine ⟨generateOps_decomp s r, ?_, ?_, ?_, ?_⟩
  · unfold backgroundOps
    cases s.background <;> rfl
  · unfold decoyOps
    by_cases h : 0 < s.decoy.opacity
    · rw [if_pos h, List.all_eq_true]
      intro op hop
      rcases List.mem_append.1 hop with h1 | h1
      · simp only [List.mem_cons, List.not_mem_nil, or_false] at h1
        rcases h1 with rfl | rfl | rfl <;> rfl
      · rcases List.mem_map.1 h1 with ⟨ci, _, rfl⟩
        rfl
    · rw [if_neg h]
      rfl
  · unfold traceOps
    by_cases h : 0 < s.trace.opacity
    · rw [if_pos h]
      cases hc : layoutCoords s r with
      | nil => rfl
      | cons c0 rest =>
        show (_ : List Op).all isStrokeStageOp = true
        rw [List.all_eq_true]
        intro op hop
        rcases List.mem_append.1 hop with h1 | h1
        · rcases List.mem_append.1 h1 with h2 | h2
          · simp only [List.mem_cons, List.not_mem_nil, or_false] at h2
            rcases h2 with rfl | rfl | rfl | rfl | rfl <;> rfl
          · rcases List.mem_map.1 h2 with ⟨c, _, rfl⟩
            rfl
        · simp only [List.mem_cons, List.not_mem_nil, or_false] at h1
          rw [h1]
          rfl
    · rw [if_neg h]
      rfl
  · unfold captchaTextOps
    by_cases h : 0 < s.captcha.opacity
    · rw [if_pos h, List.all_eq_true]
      intro op hop
      rcases List.mem_append.1 hop with h1 | h1
      · simp only [List.mem_cons, List.not_mem_nil, or_false] at h1
        rcases h1 with rfl | rfl | rfl <;> rfl
      · rcases List.mem_map.1 h1 with ⟨ci, _, rfl⟩
        rfl
    · rw [if_neg h]
      rfl

/-- Claim C8: opacity 0 disables a stage: with decoy opacity 0 the decoy
stage issues nothing, with trace opacity 0 the trace stage issues
nothing, with captcha opacity 0 the text stage issues nothing; with all
three at 0 a `generate` call issues only the setup calls and the optional
background blit. -/
theorem opacity_zero_skips_stage (s : GenState) (r : Rand) :
    (s.decoy.opacity = 0 → decoyOps s r = []) ∧
    (s.trace.opacity = 0 → traceOps s (layoutCoords s r) = .ok []) ∧
    (s.captcha.opacity = 0 → captchaTextOps s (layoutCoords s r) = []) ∧
    (s.decoy.opacity = 0 → s.trace.opacity = 0 → s.captcha.opacity = 0 →
      generateOps s r = .ok (setupOps ++ backgroundOps s)) := by
  have hd : s.decoy.opacity = 0 → decoyOps s r = [] := by
    intro h
    unfold decoyOps
    rw [if_neg]
    rw [h]
    exact lt_irrefl 0
  have ht : s.trace.opacity = 0 → traceOps s (layoutCoords s r) = .ok [] := by
    intro h
    unfold traceOps
    rw [if_neg]
    rw [h]
    exact lt_irrefl 0
  have hc : s.captcha.opacity = 0 →
      captchaTextOps s (layoutCoords s r) = [] := by
    intro h
    unfold captchaTextOps
    rw [if_neg]
    rw [h]
    exact lt_irrefl 0
  refine ⟨hd, ht, hc, ?_⟩
  intro h1 h2 h3
  rw [generateOps_decomp s r, ht h2, hd h1, hc h3]
  simp [Except.map]

/-- A generator state with all three stage opacities set to 0. -/
def zeroOpacityState : GenState :=
  { sampleState with
    captcha := { sampleCaptchaOpts with opacity := 0 },
    trace := { color := "red", size := 3, opacity := 0 },
    decoy := { color := "gray", font := "Sans", size := 20, opacity := 0 } }

/-- Witness for the C8 theorem at a concrete all-zero-opacity state. -/
theorem opacity_zero_skips_stage_witness :
    decoyOps zeroOpacityState sampleRand = [] ∧
    traceOps zeroOpacityState (layoutCoords zeroOpacityState sampleRand) = .ok [] ∧
    captchaTextOps zeroOpacityState (layoutCoords zeroOpacityState sampleRand) = [] ∧
    generateOps zeroOpacityState sampleRand =
      .ok (setupOps ++ backgroundOps zeroOpacityState) := by
  have h := opacity_zero_skips_stage zeroOpacityState sampleRand
  exact ⟨h.1 rfl, h.2.1 rfl, h.2.2.1 rfl, h.2.2.2 rfl rfl rfl⟩

/-- Claim C9: the challenge text is fixed at construction and never
regenerated by `generate`: after any number of `generate()` calls (with
arbitrary random draws and no intervening mutator calls) the stored
captcha text, and hence the `text` accessor, is unchanged. -/
theorem generate_preserves_text (s : GenState) (rs : ℕ → Rand) (n : ℕ) :
    (runGenerates s rs n).captcha.text = s.captcha.text ∧
    textAccessor (runGenerates s rs n) = textAccessor s := by
  induction n with
  | zero => exact ⟨rfl, rfl⟩
  | succ k ih =>
    rw [runGenerates, generateRun]
    exact ih

/-- Claim C10: with `characters ≥ 1` the trace stage's coordinate
accesses are in bounds and `generate` completes without a runtime error;
with `characters = 0` and trace opacity > 0, `generate` reads the first
element of the empty coordinate list and aborts with a `TypeError`. -/
theorem trace_coordinate_access (s : GenState) (r : Rand) :
    (1 ≤ s.captcha.characters → ∃ ops, generateOps s r = .ok ops) ∧
    (s.captcha.characters = 0 → 0 < s.trace.opacity →
      generateOps s r = .error .typeError) := by
  have hlen : (layoutCoords s r).length = s.captcha.characters := by
    rw [layoutCoords_eq_rawCoords, rawCoords, List.length_map, List.length_range]
  constructor
  · intro hn
    have hne : layoutCoords s r ≠ [] := by
      intro h
      rw [h] at hlen
      simp only [List.length_nil] at hlen
      omega
    rw [generateOps_decomp]
    unfold traceOps
    by_cases h : 0 < s.trace.opacity
    · rw [if_pos h]
      cases hc : layoutCoords s r with
      | nil => exact absurd hc hne
      | cons c0 rest => exact ⟨_, rfl⟩
    · rw [if_neg h]
      exact ⟨_, rfl⟩
  · intro h0 hop
    have hnil : layoutCoords s r = [] := by
      rw [← List.length_eq_zero, hlen, h0]
    rw [generateOps_decomp]
    unfold traceOps
    rw [if_pos hop, hnil]
    rfl

/-- Witness for the C10 theorem: the sample state (6 characters)
generates successfully; the zero-character state with trace enabled
fails with a `TypeError`. -/
theorem trace_coordinate_access_witness :
    (∃ ops, generateOps sampleState sampleRand = .ok ops) ∧
    generateOps emptyCharsState sampleRand = .error .typeError :=
  ⟨(trace_coordinate_access sampleState sampleRand).1 (by decide),
   (trace_coordinate_access emptyCharsState sampleRand).2 rfl (by decide)⟩

/-- The heap before any construction: the shared default captcha options
object exported by `./constants`, with an as-yet empty text. -/
def initialHeap : JsHeap :=
  { defaultCaptcha :=
    { characters := 6, text := [], color := "green", font := "Sans",
      size := 40, opacity := 1 } }

/-- Thirty-two copies of the byte 0xAB: hex encoding "abab…", challenge text
"ABABAB". -/
def bytesAB : List ℕ := List.replicate 32 171

/-- Thirty-two copies of the byte 0xCD: hex encoding "cdcd…", challenge text
"CDCDCD". -/
def bytesCD : List ℕ := List.replicate 32 205

/-- Claim C4 evaluated at the failing input: constructing a first
generator `g1` yields `g1.text = "ABABAB"`, but constructing a *second*
generator overwrites `g1`'s challenge text to "CDCDCD" — `this.captcha`
of every instance is the one shared `defaultCaptchaOptions` object
(line 41), and line 53 writes the new text through it.  This refutes the
claim that a second construction leaves `g1.text` unchanged. -/
theorem second_construction_mutates_first :
    instText (constructGen initialHeap 100 300 bytesAB).1
        (constructGen initialHeap 100 300 bytesAB).2 =
      ['A', 'B', 'A', 'B', 'A', 'B'] ∧
    instText
        (constructGen (constructGen initialHeap 100 300 bytesAB).1
          100 300 bytesCD).1
        (constructGen initialHeap 100 300 bytesAB).2 =
      ['C', 'D', 'C', 'D', 'C', 'D'] ∧
    (['A', 'B', 'A', 'B', 'A', 'B'] : List Char) ≠
      ['C', 'D', 'C', 'D', 'C', 'D'] := by
  decide

end CaptchaCanvas
